import Mathlib

/-!
Verification of the country-safe point placement engine
(`src/geoPlacement.js` of the newsglobe frontend).

Modelling conventions, applied uniformly:

* JavaScript numbers (IEEE-754 doubles) are modelled as exact rationals
  (`ℚ`).  Every arithmetic step the placement engine performs on the
  integer/PRNG side (`hash32`, `mulberry32`, `Math.imul`, `>>>`, `|`,
  the final division by `2^32`, `Math.floor`) is exact in doubles at the
  ranges used, so the `ℚ` model agrees bit-for-bit with the code there.
  Decimal literals from the source are modelled by their exact decimal
  value; `Math.PI` and `Math.sqrt(5)` are modelled by the exact rational
  value of the corresponding double.
* `Math.cos` / `Math.sin` (implementation-approximated in JS) are
  modelled by fixed rational Taylor approximations `cosQ` / `sinQ`.
  Every concrete fact decided below has a margin many orders of
  magnitude larger than the approximation error, and every general
  theorem below is insensitive to the values of `cosQ` / `sinQ`.
* An absent (`undefined`) or `NaN` coordinate is modelled as `none` in
  `Option ℚ`; a present finite number as `some q`.  `Number(x).toFixed 3`
  on such values is modelled by `fix3` (a `none` coordinate renders as
  the string "NaN", a present one as sign plus magnitude rounded half
  away from zero to 3 decimals, exactly as ECMA `toFixed` prescribes).
* Article records are an explicit structure: the fields the engine reads
  (`country`, `lat`, `lon`, `id`, `url`, `title`) plus an opaque `extra`
  association list standing for all other fields, which the engine only
  ever copies.
* The `mulberry32` closure is modelled by explicit state passing: one
  invocation maps the current state to the next state and the produced
  value in `[0,1)`.  (The JS state update `a += 0x6D2B79F5` is exact in
  doubles for the bounded number of calls performed per placement.)
* The country table of the source (`countryBounds`) is transcribed as an
  association list in source order.  The JS membership test
  `a.country in countryBounds` traverses the prototype chain: it is true
  for the own keys (modelled by `List.lookup`) and also for the property
  names every plain object inherits from `Object.prototype`
  (`protoProps`).  On an inherited name the source reads `undefined`
  bounds and `insetRect` throws a `TypeError`; `placeOneE` /
  `placeArticlesE` model this exactly, with `Except.error ()` standing
  for the thrown exception, while `placeOne` / `placeArticles` are the
  throw-free core used on prototype-free batches.
-/

attribute [local semireducible] Rat.add Rat.mul Rat.inv Rat.sub Rat.ofScientific

/-- An axis-aligned rectangle: `lat = (min, max)`, `lon = (min, max)`,
mirroring the `{ lat:[a,b], lon:[c,d] }` objects of the source. -/
structure Rect where
  lat : ℚ × ℚ
  lon : ℚ × ℚ
deriving DecidableEq, Repr

/-- One entry of a country's `patches` list: a rectangle plus the
optional per-patch `insetPct` override (never set in the shipped data,
but read by the code via `p.insetPct ?? ...`). -/
structure Patch where
  rect : Rect
  insetPct : Option ℚ := none
deriving DecidableEq, Repr

/-- One value of the `countryBounds` table: the fallback bounds
rectangle (`lat`/`lon`), the optional default `insetPct`, and the
optional `patches` list (absence modelled as `[]`). -/
structure CountryDef where
  lat : ℚ × ℚ
  lon : ℚ × ℚ
  insetPct : Option ℚ := none
  patches : List Patch := []
deriving DecidableEq, Repr

/-- An article record as read by the placement engine.  `none` in
`lat`/`lon` models an absent or non-finite coordinate; `none` in the
string fields models an absent field.  `extra` models all remaining
fields, which the engine copies verbatim. -/
structure Article where
  country : Option String
  lat : Option ℚ
  lon : Option ℚ
  id : Option String := none
  url : Option String := none
  title : Option String := none
  extra : List (String × String) := []
deriving DecidableEq, Repr

/-- Exact rational value of the double `Math.PI`. -/
def piQ : ℚ := 884279719003555 / 281474976710656

/-- Exact rational value of the double `Math.sqrt 5`. -/
def sqrt5Q : ℚ := 629397181890197 / 281474976710656

/-- `GOLDEN_ANGLE = Math.PI * (3 - Math.sqrt(5))` of the source
(≈ 2.39996). -/
def GOLDEN_ANGLE : ℚ := piQ * (3 - sqrt5Q)

/-- Rational stand-in for `Math.cos`: the degree-16 Taylor polynomial of
cosine (error below `2e-9` for `|x| ≤ 2.5`, far below every margin used
in the concrete facts decided in this file). -/
def cosQ (x : ℚ) : ℚ :=
  let y := x * x
  1 - y / 2 + y ^ 2 / 24 - y ^ 3 / 720 + y ^ 4 / 40320 - y ^ 5 / 3628800
    + y ^ 6 / 479001600 - y ^ 7 / 87178291200 + y ^ 8 / 20922789888000

/-- Rational stand-in for `Math.sin`: the degree-15 Taylor polynomial of
sine. -/
def sinQ (x : ℚ) : ℚ :=
  let y := x * x
  x * (1 - y / 6 + y ^ 2 / 120 - y ^ 3 / 5040 + y ^ 4 / 362880
    - y ^ 5 / 39916800 + y ^ 6 / 6227020800 - y ^ 7 / 1307674368000)

/-- `hash32` of the source: FNV-1a-style hash of the string's UTF-16
code units, all arithmetic modulo `2^32` (`Math.imul` plus `>>> 0`). -/
def hash32 (s : String) : ℕ :=
  s.toList.foldl
    (fun h c => (Nat.xor h (c.toNat % 65536) * 16777619) % 4294967296)
    2166136261

/-- The output-mixing step of `mulberry32` applied to a state value `t`
(the JS bit operations coerce `t` to 32 bits, hence the leading mod). -/
def mulberryMix (t : ℕ) : ℕ :=
  let t0 := t % 4294967296
  let t1 := (Nat.xor t0 (t0 >>> 15) * (t0 ||| 1)) % 4294967296
  let m := (Nat.xor t1 (t1 >>> 7) * (t1 ||| 61)) % 4294967296
  let t2 := Nat.xor t1 ((t1 + m) % 4294967296)
  Nat.xor t2 (t2 >>> 14)

/-- One invocation of the closure returned by `mulberry32`: the state is
advanced by `0x6D2B79F5` and the mixed 32-bit value is divided by
`2^32`, giving a rational in `[0,1)`. -/
def mulberry32 (a : ℕ) : ℕ × ℚ :=
  let a2 := a + 0x6D2B79F5
  (a2, (mulberryMix a2 : ℚ) / 4294967296)

/-- `metersToDegrees` of the source: converts metre offsets to degree
deltas with the flat-earth approximation, guarding the cosine
denominator against zero (the JS `|| 1e-6`). -/
def metersToDegrees (lat dxMeters dyMeters : ℚ) : ℚ × ℚ :=
  let dLat := dyMeters / 111111
  let den := 111111 * cosQ (lat * piQ / 180)
  let dLon := dxMeters / (if den = 0 then 1 / 1000000 else den)
  (dLat, dLon)

/-- `clamp` of the source: `Math.max(a, Math.min(b, x))`. -/
def clamp (x a b : ℚ) : ℚ := max a (min b x)

/-- `insideRect` of the source: closed-range containment on both axes. -/
def insideRect (lat lon : ℚ) (r : Rect) : Bool :=
  decide (r.lat.1 ≤ lat) && decide (lat ≤ r.lat.2) &&
  decide (r.lon.1 ≤ lon) && decide (lon ≤ r.lon.2)

/-- `insetRect` of the source: shrink each axis inward by `pct` of its
span.  Note the source applies the inset unconditionally — there is no
inversion guard. -/
def insetRect (r : Rect) (pct : ℚ) : Rect :=
  let latSpan := r.lat.2 - r.lat.1
  let lonSpan := r.lon.2 - r.lon.1
  let padLat := latSpan * pct
  let padLon := lonSpan * pct
  { lat := (r.lat.1 + padLat, r.lat.2 - padLat),
    lon := (r.lon.1 + padLon, r.lon.2 - padLon) }

/-- `clampToRect` of the source. -/
def clampToRect (lat lon : ℚ) (r : Rect) : ℚ × ℚ :=
  (clamp lat r.lat.1 r.lat.2, clamp lon r.lon.1 r.lon.2)

/-- `rectDist2` of the source: squared axis-aligned distance from a
point to a rectangle (0 if inside). -/
def rectDist2 (lat lon : ℚ) (r : Rect) : ℚ :=
  let dy := if lat < r.lat.1 then r.lat.1 - lat
            else if r.lat.2 < lat then lat - r.lat.2 else 0
  let dx := if lon < r.lon.1 then r.lon.1 - lon
            else if r.lon.2 < lon then lon - r.lon.2 else 0
  dx * dx + dy * dy

/-- `insideAny` of the source. -/
def insideAny (lat lon : ℚ) (rects : List Rect) : Bool :=
  rects.any (insideRect lat lon)

/-- The best-rectangle scan shared by `clampToBestRect` and the inlined
loop of step (3) of `placeArticles`: start from `rects[0]` with best
distance `Infinity` (modelled as `none`) and keep the strictly closer
rectangle, ties broken by first occurrence. -/
def bestZone (lat lon : ℚ) (rects : List Rect) : Rect :=
  (rects.foldl
    (fun acc r =>
      let d := rectDist2 lat lon r
      match acc.2 with
      | none => (r, some d)
      | some bd => if d < bd then (r, some d) else acc)
    (rects.headD { lat := (0, 0), lon := (0, 0) }, none)).1

/-- `clampToBestRect` of the source. -/
def clampToBestRect (lat lon : ℚ) (rects : List Rect) : ℚ × ℚ :=
  clampToRect lat lon (bestZone lat lon rects)

/-- The retry loop of `spiralWithinRect`, by remaining tries: offset the
center by the polar offset `(r, theta)`, return the point if it lands
inside the rectangle, otherwise shrink the radius by 0.62 and advance
the angle by `1.15` golden angles; after 12 failed tries clamp the
untouched center into the rectangle. -/
def spiralGo (centerLat centerLon : ℚ) (rect : Rect) :
    ℕ → ℚ → ℚ → ℚ × ℚ
  | 0, _, _ => clampToRect centerLat centerLon rect
  | tries + 1, r, theta =>
    let dx := cosQ theta * r
    let dy := sinQ theta * r
    let md := metersToDegrees centerLat dx dy
    let lat := centerLat + md.1
    let lon := centerLon + md.2
    if insideRect lat lon rect then (lat, lon)
    else spiralGo centerLat centerLon rect tries (r * 0.62)
      (theta + GOLDEN_ANGLE * 1.15)

/-- `spiralWithinRect` of the source: radius `base + n*step`
(base 380 m, step 240 m), angle `n * GOLDEN_ANGLE`, 12 tries. -/
def spiralWithinRect (centerLat centerLon : ℚ) (rect : Rect) (n : ℕ)
    (base : ℚ := 380) (step : ℚ := 240) : ℚ × ℚ :=
  spiralGo centerLat centerLon rect 12 (base + n * step) (n * GOLDEN_ANGLE)

/-- Helper to build a patch rectangle (no per-patch inset override, as
in all shipped data). -/
def mkP (a b c d : ℚ) : Patch := { rect := { lat := (a, b), lon := (c, d) } }

/-- The `India` entry of `countryBounds` (named for reuse in concrete
instances below). -/
def indiaDef : CountryDef :=
  { lat := (6, 35), lon := (68, 97), insetPct := some 0.04,
    patches := [mkP 8 21 73 78, mkP 10 20 78 84, mkP 15 22 72 76,
      mkP 22 28 73 84, mkP 26 32 74 79, mkP 11 13.5 76 80,
      mkP 17 19.5 81 85, mkP 23 27 88 92] }

/-- The `Japan` entry of `countryBounds`. -/
def japanDef : CountryDef :=
  { lat := (24.0, 45.7), lon := (122.9, 145.9),
    patches := [mkP 34.0 36.5 135.0 139.5, mkP 35.2 36.2 139.2 140.8,
      mkP 34.3 35.6 132.0 135.0, mkP 33.0 34.8 129.0 131.0,
      mkP 43.0 44.7 141.0 143.0, mkP 34.1 34.6 134.0 134.7] }

/-- The `Egypt` entry of `countryBounds`. -/
def egyptDef : CountryDef :=
  { lat := (22.0, 31.7), lon := (24.7, 36.9),
    patches := [mkP 25 30 29 33, mkP 27 31 32.3 34.2] }


/-- Helper to build a table entry with no default `insetPct`. -/
def mkC (la1 la2 lo1 lo2 : ℚ) (ps : List Patch) : CountryDef :=
  { lat := (la1, la2), lon := (lo1, lo2), patches := ps }

/-- The `Singapore` entry of `countryBounds` (the only entry with a
zero `insetPct`). -/
def singaporeDef : CountryDef :=
  { lat := (1.16, 1.49), lon := (103.57, 103.99), insetPct := some 0.0,
    patches := [mkP 1.24 1.45 103.65 103.95] }

/-- The `countryBounds` table of the source, transcribed entry by entry
in source order. -/
def countryBounds : List (String × CountryDef) := [
  ("India", indiaDef),
  ("Pakistan", mkC 23.7 37.1 60.9 77.0 [mkP 24.5 28.0 66 70,
    mkP 28.0 33.0 69 73, mkP 31.0 35.5 71 74.5, mkP 26.0 30.0 62.8 67.5]),
  ("Bangladesh", mkC 20.6 26.7 88.0 92.7 [mkP 22.2 24.5 89.0 91.0,
    mkP 24.0 26.2 90.0 92.3]),
  ("Sri Lanka", mkC 5.7 10.0 79.5 82.1 [mkP 6.2 9.4 79.9 81.9]),
  ("Nepal", mkC 26.3 30.5 80.0 88.5 [mkP 27.0 29.3 81.0 86.5]),
  ("Bhutan", mkC 26.6 28.4 88.7 92.2 [mkP 26.8 28.2 89.0 91.8]),
  ("China", mkC 18.1 53.6 73.5 134.8 [mkP 22 27 110 116, mkP 28 36 105 118,
    mkP 36 45 110 126, mkP 30 33 120 123]),
  ("Japan", japanDef),
  ("South Korea", mkC 33.0 38.6 124.6 131.9 [mkP 35.0 37.8 126.8 129.5,
    mkP 33.1 33.6 126.1 126.9]),
  ("Taiwan", mkC 21.7 25.4 119.9 122.2 [mkP 22.5 25.1 120.1 122.0]),
  ("Indonesia", mkC (-11.2) 6.4 95.0 141.0 [mkP (-8.2) (-6.0) 107.0 113.0,
    mkP (-7.8) (-6.8) 112.0 114.9, mkP (-3.5) 0.5 102.0 106.0,
    mkP (-2.0) 1.5 106.0 112.0, mkP (-2.0) 1.5 112.0 115.0,
    mkP (-5.5) (-1.5) 119.0 121.8, mkP (-8.9) (-7.8) 114.5 116.0]),
  ("Philippines", mkC 4.4 21.3 116.9 126.6 [mkP 14.4 16.0 120.6 122.0,
    mkP 10.0 11.9 122.3 124.2, mkP 6.5 8.5 124.0 126.2]),
  ("Vietnam", mkC 8.3 23.4 102.1 109.6 [mkP 10.3 11.5 106.2 107.5,
    mkP 16.0 17.6 107.5 109.0, mkP 20.4 21.7 105.4 106.8]),
  ("Thailand", mkC 5.5 20.5 97.3 105.7 [mkP 13.0 15.5 100.2 101.5,
    mkP 16.0 18.2 100.2 102.0, mkP 7.0 9.0 98.8 100.4]),
  ("Malaysia", mkC 0.8 7.5 99.6 104.7 [mkP 2.5 4.8 101.5 103.5,
    mkP 5.1 6.8 100.2 102.0]),
  ("Singapore", singaporeDef),
  ("Turkey", mkC 35.8 42.3 25.7 44.8 [mkP 38.0 41.5 26.5 30.5,
    mkP 37.5 39.0 32.5 36.5, mkP 36.5 38.2 39.0 42.5]),
  ("Iran", mkC 24.7 39.8 44.0 63.3 [mkP 29.5 33.8 49.0 55.0,
    mkP 35.4 37.7 50.0 53.6, mkP 27.5 29.7 56.8 59.5]),
  ("Iraq", mkC 29.0 37.4 38.8 48.6 [mkP 33.0 35.6 43.0 45.8,
    mkP 30.7 32.8 46.0 48.2]),
  ("Israel", mkC 29.4 33.4 34.2 35.9 [mkP 31.1 32.7 34.7 35.3,
    mkP 32.0 33.2 35.0 35.6]),
  ("Jordan", mkC 29.2 33.4 34.9 39.3 [mkP 31.1 32.3 35.6 36.2,
    mkP 30.2 31.1 35.0 36.0]),
  ("Egypt", egyptDef),
  ("Morocco", mkC 21.3 35.9 (-17.2) (-1.0) [mkP 30.0 34.0 (-9.6) (-5.5),
    mkP 28.5 31.2 (-8.0) (-6.0)]),
  ("Algeria", mkC 18.9 37.1 (-8.7) 11.9 [mkP 35.0 36.9 (-5.8) 8.8,
    mkP 31.0 33.5 2.0 7.0]),
  ("Tunisia", mkC 30.2 37.6 7.5 11.6 [mkP 33.5 36.9 8.5 10.8]),
  ("Nigeria", mkC 4.2 13.9 2.7 14.7 [mkP 6.0 8.4 3.0 9.0,
    mkP 7.0 9.6 8.5 12.5, mkP 9.5 12.8 9.0 13.8]),
  ("Ghana", mkC 4.5 11.2 (-3.3) 1.2 [mkP 5.0 7.0 (-2.0) 0.8,
    mkP 7.2 9.8 (-2.5) 0.4]),
  ("Kenya", mkC (-4.8) 5.3 33.9 41.9 [mkP (-1.3) 1.5 36.3 38.0,
    mkP (-0.6) 3.0 34.5 36.5, mkP (-4.0) (-2.0) 38.3 40.5]),
  ("South Africa", mkC (-34.9) (-22.1) 16.5 32.9
    [mkP (-34.0) (-32.2) 18.0 20.0, mkP (-26.5) (-24.0) 27.0 30.0,
    mkP (-29.5) (-28.0) 30.0 31.8]),
  ("Ethiopia", mkC 3.4 14.9 32.9 48.0 [mkP 7.8 10.5 37.5 40.5,
    mkP 11.0 12.7 37.0 39.5]),
  ("Sierra Leone", mkC 6.9 10.0 (-13.3) (-10.3) [mkP 7.4 9.6 (-12.7) (-11.0)]),
  ("United Kingdom", mkC 49.9 60.9 (-8.6) 1.8 [mkP 50.2 55.8 (-6.0) (-1.0),
    mkP 54.0 55.4 (-8.2) (-5.3), mkP 56.0 58.5 (-5.8) (-2.8)]),
  ("Ireland", mkC 51.4 55.4 (-10.5) (-5.3) [mkP 52.3 54.2 (-8.8) (-6.2)]),
  ("France", mkC 41.1 51.3 (-5.5) 9.7 [mkP 44.5 48.8 (-1.5) 3.5,
    mkP 43.2 45.2 5.0 7.5, mkP 48.3 50.0 1.5 3.2]),
  ("Spain", mkC 36.0 43.8 (-9.9) 4.4 [mkP 39.5 41.8 (-4.5) 0.5,
    mkP 37.5 39.0 (-4.0) (-1.5), mkP 41.2 42.6 (-3.5) 0.5]),
  ("Portugal", mkC 36.8 42.2 (-9.6) (-6.1) [mkP 38.5 41.7 (-8.6) (-7.1)]),
  ("Germany", mkC 47.2 55.1 5.9 15.1 [mkP 48.8 50.5 8.2 11.5,
    mkP 50.7 53.2 7.0 11.0]),
  ("Italy", mkC 36.6 47.1 6.6 18.8 [mkP 41.5 43.9 12.0 14.5,
    mkP 44.0 45.7 9.0 11.8, mkP 37.0 38.4 13.2 15.6]),
  ("Netherlands", mkC 50.7 53.7 3.2 7.3 [mkP 51.6 53.3 4.5 6.8]),
  ("Belgium", mkC 49.5 51.6 2.5 6.4 [mkP 50.6 51.2 3.6 5.5]),
  ("Switzerland", mkC 45.8 47.8 5.9 10.5 [mkP 46.0 47.5 6.5 9.5]),
  ("Austria", mkC 46.4 49.0 9.5 17.0 [mkP 47.2 48.6 13.0 16.2]),
  ("Poland", mkC 49.0 54.9 14.1 24.2 [mkP 50.8 52.7 17.0 21.5,
    mkP 52.2 53.9 19.0 22.8]),
  ("Czechia", mkC 48.5 51.1 12.1 18.9 [mkP 49.2 50.5 13.0 16.9]),
  ("Sweden", mkC 55.2 69.1 11.1 24.2 [mkP 57.5 60.5 12.0 18.7,
    mkP 60.2 63.5 16.0 21.0]),
  ("Norway", mkC 57.9 71.3 4.6 31.1 [mkP 59.8 63.0 6.0 11.5,
    mkP 63.0 65.3 10.0 15.5]),
  ("Denmark", mkC 54.5 57.8 8.0 12.7 [mkP 55.2 56.7 9.0 11.5]),
  ("Finland", mkC 59.8 70.1 20.5 31.6 [mkP 60.8 63.0 23.0 27.8,
    mkP 63.2 65.8 24.0 28.6]),
  ("Ukraine", mkC 44.3 52.4 22.1 40.2 [mkP 48.5 50.7 24.0 32.0,
    mkP 46.6 48.3 30.2 36.2]),
  ("United States", mkC 24.5 49.5 (-125) (-66.5) [mkP 26 36 (-119) (-96),
    mkP 32 41 (-110) (-85), mkP 35 48 (-100) (-74), mkP 28 35 (-90) (-80)]),
  ("Canada", mkC 43 62 (-140) (-52) [mkP 43 50 (-124) (-114),
    mkP 44 50 (-113) (-90), mkP 44 51 (-89) (-66)]),
  ("Mexico", mkC 14.3 32.7 (-118.5) (-86.5) [mkP 19.0 21.0 (-104.0) (-99.5),
    mkP 25.0 27.5 (-101.5) (-98.0), mkP 16.5 18.8 (-99.5) (-96.0)]),
  ("Brazil", mkC (-33.8) 5.3 (-73.9) (-34.8)
    [mkP (-24.5) (-21.5) (-49.0) (-43.5), mkP (-23.0) (-19.0) (-47.5) (-42.0),
    mkP (-16.5) (-12.5) (-49.0) (-43.0)]),
  ("Argentina", mkC (-55.1) (-21.8) (-73.7) (-53.6)
    [mkP (-34.8) (-32.5) (-60.5) (-57.0), mkP (-33.6) (-31.0) (-69.5) (-66.2)]),
  ("Chile", mkC (-55.9) (-17.5) (-75.7) (-66.3)
    [mkP (-37.5) (-33.5) (-73.5) (-70.0), mkP (-41.0) (-38.5) (-73.5) (-71.0)]),
  ("Colombia", mkC (-4.3) 13.4 (-79.1) (-66.8) [mkP 4.0 7.0 (-76.0) (-73.0),
    mkP 6.0 7.5 (-74.0) (-72.0)]),
  ("Peru", mkC (-18.4) (-0.0) (-81.4) (-68.6)
    [mkP (-13.5) (-11.0) (-76.0) (-73.0), mkP (-12.5) (-9.0) (-75.0) (-72.0)]),
  ("Australia", mkC (-43.7) (-10.7) 113.3 153.6 [mkP (-38) (-27) 144 153,
    mkP (-35) (-30) 138 147, mkP (-33) (-16) 115 123]),
  ("New Zealand", mkC (-47.3) (-34.4) 166.4 178.6
    [mkP (-46) (-41) 167.5 174.5, mkP (-40) (-36) 173.5 176.5])]

/-- The safe-zone list built inline in `placeArticles`: the inset
patches when `def.patches` is non-empty, else the single inset bounds
rectangle; effective inset percentage `p.insetPct ?? def.insetPct ?? 0.04`. -/
def zonesPlace (d : CountryDef) : List Rect :=
  match d.patches with
  | [] => [insetRect { lat := d.lat, lon := d.lon } (d.insetPct.getD 0.04)]
  | ps => ps.map (fun p => insetRect p.rect (p.insetPct.getD (d.insetPct.getD 0.04)))

/-- The patch list used by `pickCountryPatchPoint`: `def.patches` when
non-empty, else the singleton fallback `{ lat:def.lat, lon:def.lon }`
(which carries no per-patch inset). -/
def patchesPick (d : CountryDef) : List Patch :=
  match d.patches with
  | [] => [{ rect := { lat := d.lat, lon := d.lon } }]
  | ps => ps

/-- The inset zones of `pickCountryPatchPoint`. -/
def zonesPick (d : CountryDef) : List Rect :=
  (patchesPick d).map
    (fun p => insetRect p.rect (p.insetPct.getD (d.insetPct.getD 0.04)))

/-- The last two PRNG draws of `pickCountryPatchPoint`: interpolate
latitude and longitude inside the chosen zone `z` starting from PRNG
state `st`, then clamp into `z`. -/
def pickFromZone (st : ℕ) (z : Rect) : ℚ × ℚ :=
  let q2 := mulberry32 st
  let lat := z.lat.1 + q2.2 * (z.lat.2 - z.lat.1)
  let q3 := mulberry32 q2.1
  let lon := z.lon.1 + q3.2 * (z.lon.2 - z.lon.1)
  clampToRect lat lon z

/-- `pickCountryPatchPoint` of the source: seed the PRNG with
`hash32(String(seedStr || country))`, draw a zone index when there are
several zones, then interpolate latitude and longitude inside the chosen
zone and clamp into it.  The `none` branch models the `!def` check for a
country bound nowhere; a country naming an inherited `Object.prototype`
member would make the source throw inside this function too, but
`placeArticles` only ever calls it after building the zones for the same
country — which throws first — so this function never receives such a
name from the pipeline (the error path is modelled in `placeOneE`). -/
def pickCountryPatchPoint (country seedStr : String) : Option (ℚ × ℚ) :=
  match countryBounds.lookup country with
  | none => none
  | some d =>
    let zones := zonesPick d
    let s := if seedStr.isEmpty then country else seedStr
    let st0 := hash32 s
    let p1 :=
      if 1 < zones.length then
        let q := mulberry32 st0
        (q.1, (⌊q.2 * zones.length⌋).toNat)
      else (st0, 0)
    some (pickFromZone p1.1 (zones.getD p1.2 { lat := (0, 0), lon := (0, 0) }))

/-- `Number(x).toFixed(3)` as used in the bucketing key, on the modelled
coordinate domain: `none` (absent / NaN) renders as the string "NaN",
modelled by `none`; a present value renders as its sign together with
its magnitude rounded half away from zero to thousandths (ECMA
`toFixed` picks the larger candidate on ties). -/
def fix3 : Option ℚ → Option (Bool × ℕ)
  | none => none
  | some q => some (decide (q < 0), (⌊|q| * 1000 + 1 / 2⌋).toNat)

/-- JS truthiness of the `country` field (absent or empty is falsy). -/
def countryTruthy (a : Article) : Bool :=
  match a.country with
  | some c => !c.isEmpty
  | none => false

/-- `keyFor` of the source: the bucket key
`country|lat.toFixed(3),lon.toFixed(3)` (falsy country renders as "?"),
modelled as the corresponding triple. -/
def keyFor (a : Article) : String × Option (Bool × ℕ) × Option (Bool × ℕ) :=
  (match a.country with
   | some c => if c.isEmpty then "?" else c
   | none => "?",
   fix3 a.lat, fix3 a.lon)

/-- The bucket for a given key: the indices (in batch order, starting at
`n`) of the records with truthy country whose key equals `k` — exactly
the list the pre-pass of `placeArticles` accumulates in its `Map`. -/
def bucketAux (k : String × Option (Bool × ℕ) × Option (Bool × ℕ)) :
    List Article → ℕ → List ℕ
  | [], _ => []
  | a :: rest, n =>
    if countryTruthy a && decide (keyFor a = k) then
      n :: bucketAux k rest (n + 1)
    else bucketAux k rest (n + 1)

/-- `buckets.get(k) || []` of the source. -/
def bucketOf (items : List Article) (k : String × Option (Bool × ℕ) × Option (Bool × ℕ)) :
    List ℕ :=
  bucketAux k items 0

/-- `bucket.indexOf(idx)` of the source (−1 when absent, as in JS). -/
def localIdx (items : List Article) (idx : ℕ) (a : Article) : ℤ :=
  let b := bucketOf items (keyFor a)
  if idx ∈ b then (b.indexOf idx : ℤ) else -1

/-- The `missing` test of the source: non-finite latitude or longitude
(`none` in the model) or the `(0,0)` sentinel. -/
def missingCoords (a : Article) : Bool :=
  a.lat.isNone || a.lon.isNone ||
    (decide (a.lat = some 0) && decide (a.lon = some 0))

/-- The seed expression `a.id || a.url || a.title || String(idx)`
(JS `||` skips absent and empty strings). -/
def seedOf (a : Article) (idx : ℕ) : String :=
  match a.id with
  | some s =>
    if s.isEmpty then
      match a.url with
      | some u => if u.isEmpty then
          (match a.title with
           | some t => if t.isEmpty then toString idx else t
           | none => toString idx)
        else u
      | none =>
        match a.title with
        | some t => if t.isEmpty then toString idx else t
        | none => toString idx
    else s
  | none =>
    match a.url with
    | some u => if u.isEmpty then
        (match a.title with
         | some t => if t.isEmpty then toString idx else t
         | none => toString idx)
      else u
    | none =>
      match a.title with
      | some t => if t.isEmpty then toString idx else t
      | none => toString idx

/-- The body of the `items.map((a, idx) => ...)` of `placeArticles`:
classify the record and produce the output record.  Branches appear in
source order: (1) missing / outside every zone / heavy duplicate →
seeded synthetic point; (2) outside every zone → clamp to best zone
(unreachable, kept as in the source); (3) modest duplicate → spiral in
the closest zone; (4) otherwise clamp to the best zone.
`List.lookup` here covers the own keys of the table; the full JS
membership test `a.country in countryBounds` also sees the inherited
`Object.prototype` member names, on which the source throws — that
error path is carried by `placeOneE` below, of which this function is
the throw-free core. -/
def placeOne (items : List Article) (idx : ℕ) (a : Article) : Article :=
  match a.country with
  | none => a
  | some c =>
    if c.isEmpty then a
    else
      match countryBounds.lookup c with
      | none => a
      | some d =>
        let zones := zonesPlace d
        let missing := missingCoords a
        let bucket := bucketOf items (keyFor a)
        let li : ℤ := localIdx items idx a
        let groupSize := bucket.length
        let seed := seedOf a idx
        let latQ := a.lat.getD 0
        let lonQ := a.lon.getD 0
        if missing || !insideAny latQ lonQ zones || decide (3 ≤ groupSize) then
          match pickCountryPatchPoint c (seed ++ "#" ++ toString li) with
          | some pt => { a with lat := some pt.1, lon := some pt.2 }
          | none => a
        else if !insideAny latQ lonQ zones then
          let p := clampToBestRect latQ lonQ zones
          { a with lat := some p.1, lon := some p.2 }
        else if decide (1 < groupSize) && decide (0 ≤ li) then
          let best := bestZone latQ lonQ zones
          let center := clampToRect latQ lonQ best
          let pt := spiralWithinRect center.1 center.2 best li.toNat
          { a with lat := some pt.1, lon := some pt.2 }
        else
          let p := clampToBestRect latQ lonQ zones
          { a with lat := some p.1, lon := some p.2 }

/-- Indexed map over the batch (the `items.map((a, idx) => ...)`). -/
def placeMap (items : List Article) : ℕ → List Article → List Article
  | _, [] => []
  | i, a :: rest => placeOne items i a :: placeMap items (i + 1) rest

/-- `placeArticles` of the source.  (For a non-array or empty input the
source returns the input itself; on the modelled domain of lists this
coincides with mapping over the batch.) -/
def placeArticles (items : List Article) : List Article :=
  placeMap items 0 items

/-- The property names every plain object inherits from
`Object.prototype` (ECMA-262, Annex B accessors included).  The JS
membership test `a.country in countryBounds` sees these names through
the prototype chain even though they are not own keys of the table. -/
def protoProps : List String :=
  ["constructor", "hasOwnProperty", "isPrototypeOf", "propertyIsEnumerable",
   "toLocaleString", "toString", "valueOf", "__proto__",
   "__defineGetter__", "__defineSetter__", "__lookupGetter__",
   "__lookupSetter__"]

/-- A record is prototype-free when its country (if any) is not one of
the inherited `Object.prototype` property names. -/
def protoFree (a : Article) : Bool :=
  match a.country with
  | some c => !protoProps.contains c
  | none => true

/-- Error-aware per-record semantics, faithful to the JS property model:
`a.country in countryBounds` is true for the own keys of the table AND
for the inherited `Object.prototype` member names.  For an own key the
behaviour is `placeOne`'s recognized-country path.  For an inherited
name, `countryBounds[a.country]` is the inherited function/object, so
`def.patches` and `def.lat` are `undefined` and `insetRect` evaluates
`undefined[1]` while building the zones — the source throws a
`TypeError`, modelled as `Except.error ()`.  Only a country bound
nowhere (neither own key nor prototype member) is passed through as a
copy.  Own keys never collide with prototype names
(`proto_lookup_none` below), so the test order is immaterial. -/
def placeOneE (items : List Article) (idx : ℕ) (a : Article) :
    Except Unit Article :=
  match a.country with
  | none => Except.ok a
  | some c =>
    if c.isEmpty then Except.ok a
    else
      match countryBounds.lookup c with
      | some _ => Except.ok (placeOne items idx a)
      | none =>
        if protoProps.contains c then Except.error ()
        else Except.ok a

/-- Error-aware indexed map: `items.map` aborts at the first record
whose callback throws, so a thrown `TypeError` propagates and no output
array is produced. -/
def placeMapE (items : List Article) : ℕ → List Article → Except Unit (List Article)
  | _, [] => Except.ok []
  | i, a :: rest =>
    match placeOneE items i a with
    | Except.error e => Except.error e
    | Except.ok o =>
      match placeMapE items (i + 1) rest with
      | Except.error e => Except.error e
      | Except.ok os => Except.ok (o :: os)

/-- `placeArticles` with the faithful error path: `Except.ok` is the
returned batch, `Except.error ()` the propagated `TypeError` raised by
`insetRect` on a prototype-member country name. -/
def placeArticlesE (items : List Article) : Except Unit (List Article) :=
  placeMapE items 0 items

/-- Concrete record whose country is the inherited prototype member
name "toString" — not an own key of the table. -/
def protoRecA : Article :=
  { country := some "toString", lat := some 1, lon := some 2, id := some "p" }

/-- Concrete record whose country is the inherited prototype member
name "valueOf" — not an own key of the table. -/
def protoRecB : Article :=
  { country := some "valueOf", lat := some 3, lon := some 4, id := some "q" }

/-- A rectangle is well-formed when `min ≤ max` on both axes. -/
def rectWF (r : Rect) : Prop := r.lat.1 ≤ r.lat.2 ∧ r.lon.1 ≤ r.lon.2

instance (r : Rect) : Decidable (rectWF r) := by unfold rectWF; infer_instance

/-- Concrete India record used for the dedup-separation scenario. -/
def indRec (s : String) : Article :=
  { country := some "India", lat := some 20.5, lon := some 78.9, id := some s }

/-- Concrete record inside India's bounds but outside every patch
(latitude 33, longitude 90 misses all eight patches). -/
def gapRec : Article :=
  { country := some "India", lat := some 33, lon := some 90, id := some "x" }

/-- Concrete Egypt record deep inside the inset Nile-corridor patch. -/
def egyRec (s : String) : Article :=
  { country := some "Egypt", lat := some 27, lon := some 31, id := some s }

/-- Concrete Japan record with both coordinates absent. -/
def japRec (s : String) : Article :=
  { country := some "Japan", lat := none, lon := none, id := some s }

/-- Concrete India record with an absent latitude and a present
longitude. -/
def mixRec (s : String) (lo : Option ℚ) : Article :=
  { country := some "India", lat := none, lon := lo, id := some s }

/-- Concrete record with a country that is not a key of the table. -/
def atlantisRec : Article :=
  { country := some "Atlantis", lat := some 1, lon := some 2,
    id := some "q", extra := [("source", "feedX")] }

/-- Concrete record with no country at all (never bucketed, passed
through unchanged). -/
def noCountryRec : Article := { country := none, lat := some 3, lon := some 4 }

/-- The coordinate pair of an output record. -/
def coordsOf (a : Article) : Option ℚ × Option ℚ := (a.lat, a.lon)

theorem lookup_mem {α β : Type} [BEq α] [LawfulBEq α] :
    ∀ (l : List (α × β)) (c : α) (d : β), l.lookup c = some d → (c, d) ∈ l := by
  intro l c d h
  induction l with
  | nil => simp [List.lookup] at h
  | cons p t ih =>
    obtain ⟨k, v⟩ := p
    rw [List.lookup] at h
    by_cases hk : c == k
    · simp only [hk] at h
      cases h
      have : c = k := by exact eq_of_beq hk
      subst this
      exact List.mem_cons_self _ _
    · simp only [Bool.not_eq_true] at hk
      simp only [hk] at h
      exact List.mem_cons_of_mem _ (ih h)

theorem table_zones_wf : ∀ p ∈ countryBounds, ∀ z ∈ zonesPlace p.2, rectWF z := by
  decide

theorem zonesWF_of_lookup {c : String} {d : CountryDef}
    (h : countryBounds.lookup c = some d) : ∀ z ∈ zonesPlace d, rectWF z :=
  table_zones_wf (c, d) (lookup_mem countryBounds c d h)

theorem lookup_empty_string : countryBounds.lookup "" = none := by decide

theorem clamp_le {x a b : ℚ} (h : a ≤ b) : a ≤ clamp x a b ∧ clamp x a b ≤ b := by
  unfold clamp
  constructor
  · exact le_max_left a _
  · exact max_le h (le_trans (min_le_left b x) le_rfl)

theorem insideRect_iff {lat lon : ℚ} {r : Rect} :
    insideRect lat lon r = true ↔
      r.lat.1 ≤ lat ∧ lat ≤ r.lat.2 ∧ r.lon.1 ≤ lon ∧ lon ≤ r.lon.2 := by
  unfold insideRect
  simp [Bool.and_eq_true, and_assoc]

theorem clampToRect_inside {lat lon : ℚ} {r : Rect} (h : rectWF r) :
    insideRect (clampToRect lat lon r).1 (clampToRect lat lon r).2 r = true := by
  obtain ⟨h1, h2⟩ := h
  unfold clampToRect
  rw [insideRect_iff]
  exact ⟨(clamp_le h1).1, (clamp_le h1).2, (clamp_le h2).1, (clamp_le h2).2⟩

theorem spiralGo_inside {cLat cLon : ℚ} {rect : Rect} (h : rectWF rect) :
    ∀ (fuel : ℕ) (r theta : ℚ),
      insideRect (spiralGo cLat cLon rect fuel r theta).1
        (spiralGo cLat cLon rect fuel r theta).2 rect = true := by
  intro fuel
  induction fuel with
  | zero => intro r theta; exact clampToRect_inside h
  | succ n ih =>
    intro r theta
    rw [spiralGo]
    by_cases hin : insideRect (cLat + (metersToDegrees cLat (cosQ theta * r) (sinQ theta * r)).1)
        (cLon + (metersToDegrees cLat (cosQ theta * r) (sinQ theta * r)).2) rect = true
    · simp [hin]
    · simp only [Bool.not_eq_true] at hin
      simpa [hin] using ih _ _

theorem spiralWithinRect_inside {cLat cLon : ℚ} {rect : Rect} (h : rectWF rect) (n : ℕ) :
    insideRect (spiralWithinRect cLat cLon rect n).1
      (spiralWithinRect cLat cLon rect n).2 rect = true := by
  unfold spiralWithinRect
  exact spiralGo_inside h 12 _ _

theorem bestZone_mem {lat lon : ℚ} : ∀ {rects : List Rect}, rects ≠ [] →
    bestZone lat lon rects ∈ rects := by
  have key : ∀ (l : List Rect) (b : Rect) (s : Option ℚ),
      (l.foldl
        (fun acc r =>
          let d := rectDist2 lat lon r
          match acc.2 with
          | none => (r, some d)
          | some bd => if d < bd then (r, some d) else acc)
        (b, s)).1 = b ∨
      (l.foldl
        (fun acc r =>
          let d := rectDist2 lat lon r
          match acc.2 with
          | none => (r, some d)
          | some bd => if d < bd then (r, some d) else acc)
        (b, s)).1 ∈ l := by
    intro l
    induction l with
    | nil => intro b s; exact Or.inl rfl
    | cons r t ih =>
      intro b s
      simp only [List.foldl_cons]
      rcases s with _ | bd
      · rcases ih r (some (rectDist2 lat lon r)) with h | h
        · exact Or.inr (by rw [h]; exact List.mem_cons_self _ _)
        · exact Or.inr (List.mem_cons_of_mem _ h)
      · by_cases hd : rectDist2 lat lon r < bd
        · simp only [hd, if_pos]
          rcases ih r (some (rectDist2 lat lon r)) with h | h
          · exact Or.inr (by rw [h]; exact List.mem_cons_self _ _)
          · exact Or.inr (List.mem_cons_of_mem _ h)
        · simp only [hd, if_neg, not_false_iff]
          rcases ih b (some bd) with h | h
          · exact Or.inl h
          · exact Or.inr (List.mem_cons_of_mem _ h)
  intro rects hne
  unfold bestZone
  rcases rects with _ | ⟨r, t⟩
  · exact absurd rfl hne
  · simp only [List.headD_cons]
    rcases key (r :: t) r none with h | h
    · rw [h]
      exact List.mem_cons_self _ _
    · exact h

theorem xor_lt_32 {a b : ℕ} (ha : a < 4294967296) (hb : b < 4294967296) :
    Nat.xor a b < 4294967296 := by
  have h32 : (4294967296 : ℕ) = 2 ^ 32 := by norm_num
  rw [h32] at ha hb ⊢
  exact Nat.bitwise_lt ha hb

theorem shiftRight_lt_32 {a : ℕ} (k : ℕ) (ha : a < 4294967296) :
    a >>> k < 4294967296 :=
  lt_of_le_of_lt
    (by rw [Nat.shiftRight_eq_div_pow]; exact Nat.div_le_self _ _) ha

theorem mulberryMix_lt (t : ℕ) : mulberryMix t < 4294967296 := by
  unfold mulberryMix
  dsimp only
  apply xor_lt_32
  · apply xor_lt_32 <;> exact Nat.mod_lt _ (by norm_num)
  · apply shiftRight_lt_32
    apply xor_lt_32 <;> exact Nat.mod_lt _ (by norm_num)

theorem mulberry32_nonneg (a : ℕ) : 0 ≤ (mulberry32 a).2 := by
  unfold mulberry32
  dsimp only
  positivity

theorem mulberry32_lt_one (a : ℕ) : (mulberry32 a).2 < 1 := by
  unfold mulberry32
  dsimp only
  rw [div_lt_one (by norm_num)]
  exact_mod_cast mulberryMix_lt _

theorem zonesPick_eq (d : CountryDef) : zonesPick d = zonesPlace d := by
  unfold zonesPick zonesPlace patchesPick
  cases hp : d.patches with
  | nil => simp [mkP]
  | cons p ps => rfl

theorem zonesPlace_ne_nil (d : CountryDef) : zonesPlace d ≠ [] := by
  unfold zonesPlace
  cases d.patches with
  | nil => simp
  | cons p ps => simp

theorem pickFromZone_inside {st : ℕ} {z : Rect} (h : rectWF z) :
    insideRect (pickFromZone st z).1 (pickFromZone st z).2 z = true :=
  clampToRect_inside h

theorem floor_rnd_lt {q : ℚ} (n : ℕ) (h0 : 0 ≤ q) (h1 : q < 1) (hn : 0 < n) :
    (⌊q * n⌋).toNat < n := by
  have hfl : ⌊q * (n : ℚ)⌋ < (n : ℤ) := by
    rw [Int.floor_lt]
    push_cast
    calc q * (n : ℚ) < 1 * (n : ℚ) := by
          apply mul_lt_mul_of_pos_right h1
          exact_mod_cast hn
      _ = (n : ℚ) := one_mul _
  have hge : (0 : ℤ) ≤ ⌊q * (n : ℚ)⌋ := Int.floor_nonneg.mpr (by positivity)
  omega

theorem getD_mem_of_lt {l : List Rect} {i : ℕ} (h : i < l.length) (d0 : Rect) :
    l.getD i d0 ∈ l := by
  rw [List.getD_eq_getElem?_getD, List.getElem?_eq_getElem h]
  exact List.getElem_mem h

theorem pick_spec {c : String} {d : CountryDef} (s : String)
    (hl : countryBounds.lookup c = some d) :
    ∃ pt, pickCountryPatchPoint c s = some pt ∧
      ∃ z ∈ zonesPlace d, insideRect pt.1 pt.2 z = true := by
  have hlen0 : 0 < (zonesPick d).length := by
    rw [zonesPick_eq]
    exact List.length_pos.mpr (zonesPlace_ne_nil d)
  unfold pickCountryPatchPoint
  rw [hl]
  dsimp only
  have key : ∀ st idx, idx < (zonesPick d).length →
      ∃ pt, some (pickFromZone st
          ((zonesPick d).getD idx { lat := (0, 0), lon := (0, 0) })) = some pt ∧
        ∃ z ∈ zonesPlace d, insideRect pt.1 pt.2 z = true := by
    intro st idx hidx
    have hzmem : (zonesPick d).getD idx { lat := (0, 0), lon := (0, 0) } ∈
        zonesPlace d := by
      rw [← zonesPick_eq d]
      exact getD_mem_of_lt hidx _
    exact ⟨_, rfl, _, hzmem,
      pickFromZone_inside (zonesWF_of_lookup hl _ hzmem)⟩
  by_cases hlen : 1 < (zonesPick d).length
  · simp only [if_pos hlen]
    exact key _ _ (floor_rnd_lt _ (mulberry32_nonneg _) (mulberry32_lt_one _) hlen0)
  · simp only [if_neg hlen]
    exact key _ _ hlen0

theorem placeMap_length (items : List Article) :
    ∀ (l : List Article) (i : ℕ), (placeMap items i l).length = l.length := by
  intro l
  induction l with
  | nil => intro i; rfl
  | cons a t ih =>
    intro i
    simp only [placeMap, List.length_cons]
    rw [ih]

theorem placeMap_getElem? (items : List Article) :
    ∀ (l : List Article) (i k : ℕ),
      (placeMap items i l)[k]? = (l[k]?).map (placeOne items (i + k)) := by
  intro l
  induction l with
  | nil => intro i k; simp only [placeMap, List.getElem?_nil, Option.map_none']
  | cons a t ih =>
    intro i k
    cases k with
    | zero =>
      simp only [placeMap, List.getElem?_cons_zero, Option.map_some', Nat.add_zero]
    | succ k =>
      simp only [placeMap, List.getElem?_cons_succ]
      rw [ih (i + 1) k]
      have h2 : i + 1 + k = i + (k + 1) := by omega
      rw [h2]

theorem placeArticles_length (items : List Article) :
    (placeArticles items).length = items.length :=
  placeMap_length items items 0

theorem placeArticles_getElem? (items : List Article) (k : ℕ) :
    (placeArticles items)[k]? = (items[k]?).map (placeOne items k) := by
  have h := placeMap_getElem? items items 0 k
  simpa using h

theorem isEmpty_false_of_lookup {c : String} {d : CountryDef}
    (hl : countryBounds.lookup c = some d) : c.isEmpty = false := by
  cases he : c.isEmpty
  · rfl
  · exfalso
    have hc : c = "" := (String.isEmpty_iff c).mp he
    rw [hc, lookup_empty_string] at hl
    cases hl

theorem placeOne_none (items : List Article) (idx : ℕ) {a : Article}
    (ha : a.country = none) : placeOne items idx a = a := by
  unfold placeOne
  rw [ha]

theorem placeOne_emptyCountry (items : List Article) (idx : ℕ) {a : Article}
    {c : String} (ha : a.country = some c) (he : c.isEmpty = true) :
    placeOne items idx a = a := by
  unfold placeOne
  rw [ha]
  simp only [he, if_true]

theorem placeOne_unknownCountry (items : List Article) (idx : ℕ) {a : Article}
    {c : String} (ha : a.country = some c)
    (hl : countryBounds.lookup c = none) : placeOne items idx a = a := by
  unfold placeOne
  rw [ha]
  dsimp only
  cases he : c.isEmpty
  · rw [hl]
    simp
  · simp

theorem placeOne_caseA {items : List Article} {idx : ℕ} {a : Article}
    {c : String} {d : CountryDef}
    (hc : a.country = some c) (hl : countryBounds.lookup c = some d)
    (hcond : (missingCoords a ||
        !insideAny (a.lat.getD 0) (a.lon.getD 0) (zonesPlace d) ||
        decide (3 ≤ (bucketOf items (keyFor a)).length)) = true) :
    placeOne items idx a =
      match pickCountryPatchPoint c
          (seedOf a idx ++ "#" ++ toString (localIdx items idx a)) with
      | some pt => { a with lat := some pt.1, lon := some pt.2 }
      | none => a := by
  have hce := isEmpty_false_of_lookup hl
  unfold placeOne
  rw [hc]
  dsimp only
  rw [hce, hl]
  dsimp only
  rw [hcond]
  simp

theorem placeOne_caseC {items : List Article} {idx : ℕ} {a : Article}
    {c : String} {d : CountryDef}
    (hc : a.country = some c) (hl : countryBounds.lookup c = some d)
    (hcond1 : (missingCoords a ||
        !insideAny (a.lat.getD 0) (a.lon.getD 0) (zonesPlace d) ||
        decide (3 ≤ (bucketOf items (keyFor a)).length)) = false)
    (hcond3 : (decide (1 < (bucketOf items (keyFor a)).length) &&
        decide (0 ≤ localIdx items idx a)) = true) :
    placeOne items idx a =
      { a with
        lat := some (spiralWithinRect
          (clampToRect (a.lat.getD 0) (a.lon.getD 0)
            (bestZone (a.lat.getD 0) (a.lon.getD 0) (zonesPlace d))).1
          (clampToRect (a.lat.getD 0) (a.lon.getD 0)
            (bestZone (a.lat.getD 0) (a.lon.getD 0) (zonesPlace d))).2
          (bestZone (a.lat.getD 0) (a.lon.getD 0) (zonesPlace d))
          (localIdx items idx a).toNat).1,
        lon := some (spiralWithinRect
          (clampToRect (a.lat.getD 0) (a.lon.getD 0)
            (bestZone (a.lat.getD 0) (a.lon.getD 0) (zonesPlace d))).1
          (clampToRect (a.lat.getD 0) (a.lon.getD 0)
            (bestZone (a.lat.getD 0) (a.lon.getD 0) (zonesPlace d))).2
          (bestZone (a.lat.getD 0) (a.lon.getD 0) (zonesPlace d))
          (localIdx items idx a).toNat).2 } := by
  have hce := isEmpty_false_of_lookup hl
  have hin : (!insideAny (a.lat.getD 0) (a.lon.getD 0) (zonesPlace d)) = false := by
    rcases Bool.or_eq_false_iff.mp hcond1 with ⟨h12, _⟩
    exact (Bool.or_eq_false_iff.mp h12).2
  unfold placeOne
  rw [hc]
  dsimp only
  rw [hce, hl]
  dsimp only
  rw [hcond1, hin, hcond3]
  simp

theorem placeOne_caseD {items : List Article} {idx : ℕ} {a : Article}
    {c : String} {d : CountryDef}
    (hc : a.country = some c) (hl : countryBounds.lookup c = some d)
    (hcond1 : (missingCoords a ||
        !insideAny (a.lat.getD 0) (a.lon.getD 0) (zonesPlace d) ||
        decide (3 ≤ (bucketOf items (keyFor a)).length)) = false)
    (hcond3 : (decide (1 < (bucketOf items (keyFor a)).length) &&
        decide (0 ≤ localIdx items idx a)) = false) :
    placeOne items idx a =
      { a with
        lat := some (clampToBestRect (a.lat.getD 0) (a.lon.getD 0) (zonesPlace d)).1,
        lon := some (clampToBestRect (a.lat.getD 0) (a.lon.getD 0) (zonesPlace d)).2 } := by
  have hce := isEmpty_false_of_lookup hl
  have hin : (!insideAny (a.lat.getD 0) (a.lon.getD 0) (zonesPlace d)) = false := by
    rcases Bool.or_eq_false_iff.mp hcond1 with ⟨h12, _⟩
    exact (Bool.or_eq_false_iff.mp h12).2
  unfold placeOne
  rw [hc]
  dsimp only
  rw [hce, hl]
  dsimp only
  rw [hcond1, hin, hcond3]
  simp

theorem placeOne_frame (items : List Article) (idx : ℕ) (a : Article) :
    (placeOne items idx a).country = a.country ∧
    (placeOne items idx a).id = a.id ∧
    (placeOne items idx a).url = a.url ∧
    (placeOne items idx a).title = a.title ∧
    (placeOne items idx a).extra = a.extra := by
  unfold placeOne
  cases hcy : a.country with
  | none => exact ⟨hcy, rfl, rfl, rfl, rfl⟩
  | some c =>
    dsimp only
    split
    · exact ⟨hcy, rfl, rfl, rfl, rfl⟩
    · split
      · exact ⟨hcy, rfl, rfl, rfl, rfl⟩
      · split
        · split
          · exact ⟨rfl, rfl, rfl, rfl, rfl⟩
          · exact ⟨hcy, rfl, rfl, rfl, rfl⟩
        · split
          · exact ⟨rfl, rfl, rfl, rfl, rfl⟩
          · split
            · exact ⟨rfl, rfl, rfl, rfl, rfl⟩
            · exact ⟨rfl, rfl, rfl, rfl, rfl⟩

/-- C1: placement is deterministic — two calls of `placeArticles` on the
same batch (with the same static table) produce identical `lat`/`lon`
on every record; the model is a pure function of the batch alone, with
no clock or external randomness input. -/
theorem placeArticles_deterministic (xs ys : List Article) (h : xs = ys) :
    (placeArticles xs).map coordsOf = (placeArticles ys).map coordsOf := by
  rw [h]

/-- Witness for C1 at a concrete batch. -/
theorem placeArticles_deterministic_witness :
    (placeArticles [indRec "a"]).map coordsOf =
      (placeArticles [indRec "a"]).map coordsOf :=
  placeArticles_deterministic [indRec "a"] [indRec "a"] rfl

theorem proto_lookup_none : ∀ s ∈ protoProps, countryBounds.lookup s = none := by
  decide

theorem placeOneE_ok (items : List Article) (idx : ℕ) (a : Article)
    (hpf : protoFree a = true) :
    placeOneE items idx a = Except.ok (placeOne items idx a) := by
  unfold placeOneE
  cases hc : a.country with
  | none => rw [placeOne_none items idx hc]
  | some c =>
    dsimp only
    cases he : c.isEmpty
    · cases hl : countryBounds.lookup c with
      | some d => simp
      | none =>
        have hcf : protoProps.contains c = false := by
          unfold protoFree at hpf
          rw [hc] at hpf
          simpa using hpf
        rw [hcf, placeOne_unknownCountry items idx hc hl]
        simp
    · rw [placeOne_emptyCountry items idx hc he]
      simp

theorem placeMapE_ok (items : List Article) :
    ∀ (l : List Article) (i : ℕ), (∀ b ∈ l, protoFree b = true) →
      placeMapE items i l = Except.ok (placeMap items i l) := by
  intro l
  induction l with
  | nil => intro i h; rfl
  | cons a t ih =>
    intro i h
    have ha := h a (List.mem_cons_self a t)
    have ht : ∀ b ∈ t, protoFree b = true :=
      fun b hb => h b (List.mem_cons_of_mem a hb)
    unfold placeMapE
    rw [placeOneE_ok items i a ha, ih (i + 1) ht]
    rfl

theorem placeArticlesE_ok (items : List Article)
    (hall : ∀ b ∈ items, protoFree b = true) :
    placeArticlesE items = Except.ok (placeArticles items) :=
  placeMapE_ok items items 0 hall

/-- C4 counterexample: `placeArticles` does not return a same-length
sequence for every array input — a batch containing a record whose
country is the inherited prototype member name "valueOf" (not a key of
the table) makes the map throw mid-way, so no output sequence is
produced at all. -/
theorem proto_throw_no_output_cex :
    countryBounds.lookup "valueOf" = none ∧
    placeArticlesE [indRec "a", protoRecB] = Except.error () :=
  ⟨rfl, rfl⟩

/-- C4 amended: for every batch in which no record carries an inherited
`Object.prototype` member name as its country, `placeArticles` returns a
sequence of the same length in which the k-th output record is the
per-record transform of the k-th input record — nothing dropped, added,
or reordered.  A batch violating that condition makes the source throw a
`TypeError` and return no sequence. -/
theorem placeArticlesE_length_order (items : List Article)
    (hall : ∀ b ∈ items, protoFree b = true) :
    ∃ out, placeArticlesE items = Except.ok out ∧
      out.length = items.length ∧
      ∀ k : ℕ, out[k]? = (items[k]?).map (placeOne items k) :=
  ⟨placeArticles items, placeArticlesE_ok items hall,
    placeArticles_length items, fun k => placeArticles_getElem? items k⟩

/-- Witness for C4 at a concrete one-record batch. -/
theorem placeArticlesE_length_order_witness :
    ∃ out, placeArticlesE [indRec "a"] = Except.ok out ∧
      out.length = ([indRec "a"] : List Article).length ∧
      ∀ k : ℕ, out[k]? = (([indRec "a"] : List Article)[k]?).map
        (placeOne [indRec "a"] k) :=
  placeArticlesE_length_order [indRec "a"] (by decide)

/-- C3 counterexample: a record whose country "toString" is NOT a key of
the reference table is nevertheless not passed through — the prototype
chain makes the membership test succeed and the source throws a
`TypeError`, producing no output record (let alone one with unchanged
coordinates). -/
theorem proto_throw_cex :
    countryBounds.lookup "toString" = none ∧
    placeArticlesE [protoRecA] = Except.error () :=
  ⟨rfl, rfl⟩

/-- C3 amended: in a batch where no record's country is an inherited
`Object.prototype` member name, placement completes, a record whose
country is absent or not a key of the table is returned with `lat`/`lon`
exactly equal to the input, and every record keeps all non-coordinate
fields unchanged.  A record whose country IS such an inherited name
(e.g. "toString") makes the source throw instead of passing it
through. -/
theorem placeArticlesE_passthrough (items : List Article) (i : ℕ)
    (a : Article) (ha : items[i]? = some a)
    (hall : ∀ b ∈ items, protoFree b = true) :
    ∃ out, placeArticlesE items = Except.ok out ∧
      ∃ o, out[i]? = some o ∧
        (a.country = none → o = a) ∧
        (∀ c, a.country = some c → countryBounds.lookup c = none → o = a) ∧
        o.country = a.country ∧ o.id = a.id ∧ o.url = a.url ∧
        o.title = a.title ∧ o.extra = a.extra := by
  refine ⟨placeArticles items, placeArticlesE_ok items hall,
    placeOne items i a, ?_, ?_, ?_, placeOne_frame items i a⟩
  · rw [placeArticles_getElem?, ha]
    rfl
  · intro hnone
    exact placeOne_none items i hnone
  · intro c hc hl
    exact placeOne_unknownCountry items i hc hl

/-- Witness for C3 at a concrete record with an unknown (non-prototype)
country. -/
theorem placeArticlesE_passthrough_witness :
    ∃ out, placeArticlesE [atlantisRec] = Except.ok out ∧
      ∃ o, out[0]? = some o ∧
        (atlantisRec.country = none → o = atlantisRec) ∧
        (∀ c, atlantisRec.country = some c →
          countryBounds.lookup c = none → o = atlantisRec) ∧
        o.country = atlantisRec.country ∧ o.id = atlantisRec.id ∧
        o.url = atlantisRec.url ∧ o.title = atlantisRec.title ∧
        o.extra = atlantisRec.extra :=
  placeArticlesE_passthrough [atlantisRec] 0 atlantisRec rfl (by decide)

/-- C9 counterexample: `insetRect` applies the inset unconditionally;
on a rectangle/percentage pair where insetting inverts the rectangle it
returns the inverted rectangle, not the un-inset one — no skip happens
(the claimed skip-on-inversion mechanism does not exist in the code). -/
theorem insetRect_no_skip_cex :
    insetRect { lat := (0, 10), lon := (0, 10) } 1 ≠
      ({ lat := (0, 10), lon := (0, 10) } : Rect) ∧
    ¬ rectWF (insetRect { lat := (0, 10), lon := (0, 10) } 1) := by
  decide

/-- C9 amended: for every entry of the shipped table, the inset fallback
bounds rectangle and every inset patch satisfy `min ≤ max` on both axes
(every shipped effective inset percentage is at most 0.04 < 1/2 and all
spans are nonnegative); `insetRect` itself is a total function that
applies the inset unconditionally and never raises, and only an
out-of-range percentage (> 1/2 on a positive-span rectangle) would
produce an inverted rectangle. -/
theorem shipped_insets_wf :
    ∀ p ∈ countryBounds,
      rectWF (insetRect { lat := p.2.lat, lon := p.2.lon }
        (p.2.insetPct.getD 0.04)) ∧
      ∀ q ∈ p.2.patches,
        rectWF (insetRect q.rect (q.insetPct.getD (p.2.insetPct.getD 0.04))) := by
  decide

/-- Witness for C9 at the India entry of the shipped table. -/
theorem shipped_insets_wf_witness :
    rectWF (insetRect { lat := indiaDef.lat, lon := indiaDef.lon }
      (indiaDef.insetPct.getD 0.04)) ∧
    ∀ q ∈ indiaDef.patches,
      rectWF (insetRect q.rect (q.insetPct.getD (indiaDef.insetPct.getD 0.04))) :=
  shipped_insets_wf ("India", indiaDef) (by decide)

/-- C2: every output record whose country is a key of the table carries
coordinates inside at least one of that country's safe zones (the inset
patches when patches exist, else the single inset bounds rectangle). -/
theorem placeArticles_containment (items : List Article) (i : ℕ) (a : Article)
    (c : String) (d : CountryDef) (ha : items[i]? = some a)
    (hc : a.country = some c) (hl : countryBounds.lookup c = some d) :
    ∃ o, (placeArticles items)[i]? = some o ∧ ∃ la lo,
      o.lat = some la ∧ o.lon = some lo ∧
      ∃ z ∈ zonesPlace d, insideRect la lo z = true := by
  refine ⟨placeOne items i a, by rw [placeArticles_getElem?, ha]; rfl, ?_⟩
  have hbm : bestZone (a.lat.getD 0) (a.lon.getD 0) (zonesPlace d) ∈
      zonesPlace d := bestZone_mem (zonesPlace_ne_nil d)
  have hbwf : rectWF (bestZone (a.lat.getD 0) (a.lon.getD 0) (zonesPlace d)) :=
    zonesWF_of_lookup hl _ hbm
  cases h1 : (missingCoords a ||
      !insideAny (a.lat.getD 0) (a.lon.getD 0) (zonesPlace d) ||
      decide (3 ≤ (bucketOf items (keyFor a)).length)) with
  | true =>
    rw [placeOne_caseA hc hl h1]
    obtain ⟨pt, hpt, z, hz, hins⟩ :=
      pick_spec (seedOf a i ++ "#" ++ toString (localIdx items i a)) hl
    rw [hpt]
    exact ⟨pt.1, pt.2, rfl, rfl, z, hz, hins⟩
  | false =>
    cases h3 : (decide (1 < (bucketOf items (keyFor a)).length) &&
        decide (0 ≤ localIdx items i a)) with
    | true =>
      rw [placeOne_caseC hc hl h1 h3]
      exact ⟨_, _, rfl, rfl, _, hbm, spiralWithinRect_inside hbwf _⟩
    | false =>
      rw [placeOne_caseD hc hl h1 h3]
      exact ⟨_, _, rfl, rfl, _, hbm, clampToRect_inside hbwf⟩

/-- Witness for C2 at a concrete India record. -/
theorem placeArticles_containment_witness :
    ∃ o, (placeArticles [indRec "a"])[0]? = some o ∧ ∃ la lo,
      o.lat = some la ∧ o.lon = some lo ∧
      ∃ z ∈ zonesPlace indiaDef, insideRect la lo z = true :=
  placeArticles_containment [indRec "a"] 0 (indRec "a") "India" indiaDef
    rfl rfl (by decide)

/-- C5 counterexample: a record with finite non-`(0,0)` coordinates
inside India's bounds but outside every patch zone, in a singleton
bucket, is not clamped to the nearest safe zone — `placeArticles` gives
it a synthetic point instead. -/
theorem caseB_not_clamped_cex :
    (placeArticles [gapRec]).map coordsOf ≠
      [(some (clampToBestRect 33 90 (zonesPlace indiaDef)).1,
        some (clampToBestRect 33 90 (zonesPlace indiaDef)).2)] := by
  decide

/-- C5 amended: a record with a recognized country, finite non-`(0,0)`
coordinates inside the country bounds but outside every patch safe zone,
and a duplicate bucket below the heavy threshold, is resolved by the
synthetic Case A path (the outside-every-zone test routes it there
before the clamping branch, which is unreachable): its output is the
seeded `pickCountryPatchPoint` point, not a clamp of its input. -/
theorem caseB_goes_synthetic (items : List Article) (i : ℕ) (a : Article)
    (c : String) (d : CountryDef) (x y : ℚ)
    (ha : items[i]? = some a) (hc : a.country = some c)
    (hl : countryBounds.lookup c = some d)
    (hlat : a.lat = some x) (hlon : a.lon = some y)
    (hnz : ¬(x = 0 ∧ y = 0))
    (hbounds : insideRect x y { lat := d.lat, lon := d.lon } = true)
    (hsize : (bucketOf items (keyFor a)).length < 3)
    (hout : insideAny x y (zonesPlace d) = false) :
    ∃ pt, pickCountryPatchPoint c
        (seedOf a i ++ "#" ++ toString (localIdx items i a)) = some pt ∧
      (placeArticles items)[i]? =
        some { a with lat := some pt.1, lon := some pt.2 } := by
  have hcond : (missingCoords a ||
      !insideAny (a.lat.getD 0) (a.lon.getD 0) (zonesPlace d) ||
      decide (3 ≤ (bucketOf items (keyFor a)).length)) = true := by
    simp [hlat, hlon, hout]
  obtain ⟨pt, hpt, -⟩ :=
    pick_spec (seedOf a i ++ "#" ++ toString (localIdx items i a)) hl
  refine ⟨pt, hpt, ?_⟩
  rw [placeArticles_getElem?, ha]
  simp only [Option.map_some']
  rw [placeOne_caseA hc hl hcond, hpt]

/-- Witness for C5 at the concrete gap record. -/
theorem caseB_goes_synthetic_witness :
    ∃ pt, pickCountryPatchPoint "India"
        (seedOf gapRec 0 ++ "#" ++ toString (localIdx [gapRec] 0 gapRec)) =
          some pt ∧
      (placeArticles [gapRec])[0]? =
        some { gapRec with lat := some pt.1, lon := some pt.2 } :=
  caseB_goes_synthetic [gapRec] 0 gapRec "India" indiaDef 33 90
    rfl rfl (by decide) rfl rfl (by decide) (by decide) (by decide) (by decide)

/-- C7 counterexample: two records share one duplicate bucket
(same country, both coordinates missing); swapping them keeps the
record's identity field and the bucket's membership (the same two
records) but changes the record's bucket-local index, hence its seed
and its synthetic point. -/
theorem caseA_reorder_cex :
    ((placeArticles [japRec "a", japRec "b"])[0]?).map coordsOf ≠
      ((placeArticles [japRec "b", japRec "a"])[1]?).map coordsOf := by
  decide

/-- C7 amended: a Case A record's synthetic point is unchanged by moving
it to a different batch position provided its seed expression and its
bucket-local index are unchanged (in particular, provided the ordered
sequence of its bucket's members is preserved — membership alone is not
enough, because the bucket-local index enters the seed). -/
theorem caseA_seed_stability (items1 items2 : List Article) (i1 i2 : ℕ)
    (a : Article) (c : String) (d : CountryDef)
    (h1 : items1[i1]? = some a) (h2 : items2[i2]? = some a)
    (hc : a.country = some c) (hl : countryBounds.lookup c = some d)
    (hseed : seedOf a i1 = seedOf a i2)
    (hli : localIdx items1 i1 a = localIdx items2 i2 a)
    (hc1 : (missingCoords a ||
        !insideAny (a.lat.getD 0) (a.lon.getD 0) (zonesPlace d) ||
        decide (3 ≤ (bucketOf items1 (keyFor a)).length)) = true)
    (hc2 : (missingCoords a ||
        !insideAny (a.lat.getD 0) (a.lon.getD 0) (zonesPlace d) ||
        decide (3 ≤ (bucketOf items2 (keyFor a)).length)) = true) :
    ((placeArticles items1)[i1]?).map coordsOf =
      ((placeArticles items2)[i2]?).map coordsOf := by
  rw [placeArticles_getElem?, placeArticles_getElem?, h1, h2]
  simp only [Option.map_some']
  rw [placeOne_caseA hc hl hc1, placeOne_caseA hc hl hc2, hseed, hli]

/-- Witness for C7: the same missing-coordinate Japan record at batch
position 0 and (after an unbucketed record is prepended) at position 1
keeps its synthetic point. -/
theorem caseA_seed_stability_witness :
    ((placeArticles [japRec "a", japRec "b"])[0]?).map coordsOf =
      ((placeArticles [noCountryRec, japRec "a", japRec "b"])[1]?).map coordsOf :=
  caseA_seed_stability [japRec "a", japRec "b"]
    [noCountryRec, japRec "a", japRec "b"] 0 1 (japRec "a") "Japan" japanDef
    rfl rfl rfl (by decide) rfl (by decide) (by decide) (by decide)

/-- C8: four records with country India, identical coordinates and
distinct ids produce four pairwise-distinct output points, each inside
one of India's safe zones (the heavy-duplicate threshold forces
synthetic placement with bucket-local seeds). -/
theorem india_dedup_separation :
    ((placeArticles [indRec "a", indRec "b", indRec "c", indRec "d"]).map
      coordsOf).Pairwise (· ≠ ·) ∧
    ∀ o ∈ placeArticles [indRec "a", indRec "b", indRec "c", indRec "d"],
      o.lat.isSome ∧ o.lon.isSome ∧
      insideAny (o.lat.getD 0) (o.lon.getD 0) (zonesPlace indiaDef) = true := by
  decide

theorem bucketAux_mem (k : String × Option (Bool × ℕ) × Option (Bool × ℕ)) :
    ∀ (l : List Article) (n j : ℕ) (b : Article),
      l[j]? = some b → countryTruthy b = true → keyFor b = k →
      (n + j) ∈ bucketAux k l n := by
  intro l
  induction l with
  | nil => intro n j b h htr hk; simp at h
  | cons a t ih =>
    intro n j b hj htr hk
    cases j with
    | zero =>
      rw [List.getElem?_cons_zero] at hj
      cases hj
      simp [bucketAux, htr, hk]
    | succ j =>
      rw [List.getElem?_cons_succ] at hj
      have hmem := ih (n + 1) j b hj htr hk
      have harith : n + 1 + j = n + (j + 1) := by omega
      rw [harith] at hmem
      unfold bucketAux
      by_cases hcnd : (countryTruthy a && decide (keyFor a = k)) = true
      · simp only [hcnd, if_true]
        exact List.mem_cons_of_mem _ hmem
      · simp only [Bool.not_eq_true] at hcnd
        simp only [hcnd, Bool.false_eq_true, if_false]
        exact hmem

theorem bucketAux_ge (k : String × Option (Bool × ℕ) × Option (Bool × ℕ)) :
    ∀ (l : List Article) (n : ℕ), ∀ x ∈ bucketAux k l n, n ≤ x := by
  intro l
  induction l with
  | nil => intro n x hx; simp [bucketAux] at hx
  | cons a t ih =>
    intro n x hx
    unfold bucketAux at hx
    by_cases hcnd : (countryTruthy a && decide (keyFor a = k)) = true
    · simp only [hcnd, if_true] at hx
      rcases List.mem_cons.mp hx with rfl | hx2
      · exact le_rfl
      · have := ih (n + 1) x hx2
        omega
    · simp only [Bool.not_eq_true] at hcnd
      simp only [hcnd, Bool.false_eq_true, if_false] at hx
      have := ih (n + 1) x hx
      omega

/-- C10 counterexample: a record whose latitude is absent but whose
longitude is a number does not get the "NaN,NaN" coordinate key
component — the longitude still renders as a number — and two such
records with the same country but different longitudes land in
different buckets. -/
theorem nan_key_cex :
    (keyFor (mixRec "a" (some 5))).2 ≠ (fix3 none, fix3 none) ∧
    keyFor (mixRec "a" (some 5)) ≠ keyFor (mixRec "b" (some 6)) ∧
    bucketOf [mixRec "a" (some 5), mixRec "b" (some 6)]
      (keyFor (mixRec "a" (some 5))) = [0] := by
  decide

/-- C10 amended: a record with a (truthy) country whose latitude AND
longitude are both absent or non-numeric gets the key `(country,NaN,NaN)`;
all such records with the same country share that key and land in one
bucket; distinct bucket members have distinct bucket-local indices; and
when the bucket reaches the heavy threshold (≥ 3) the record is placed
synthetically with its bucket-local index appended to its seed. -/
theorem nan_bucket_amended (items : List Article) (i : ℕ) (a : Article)
    (c : String) (d : CountryDef)
    (ha : items[i]? = some a) (hc : a.country = some c)
    (hce : c.isEmpty = false) (hl : countryBounds.lookup c = some d)
    (hlat : a.lat = none) (hlon : a.lon = none) :
    keyFor a = (c, none, none) ∧
    (∀ j b, items[j]? = some b → b.country = some c → b.lat = none →
      b.lon = none →
      keyFor b = keyFor a ∧ j ∈ bucketOf items (keyFor a)) ∧
    (∀ j k2, j ∈ bucketOf items (keyFor a) → k2 ∈ bucketOf items (keyFor a) →
      j ≠ k2 →
      (bucketOf items (keyFor a)).indexOf j ≠
        (bucketOf items (keyFor a)).indexOf k2) ∧
    (3 ≤ (bucketOf items (keyFor a)).length →
      ∃ pt, pickCountryPatchPoint c
          (seedOf a i ++ "#" ++ toString (localIdx items i a)) = some pt ∧
        (placeArticles items)[i]? =
          some { a with lat := some pt.1, lon := some pt.2 }) := by
  have hkeya : keyFor a = (c, none, none) := by
    unfold keyFor fix3
    rw [hc, hlat, hlon]
    simp [hce]
  refine ⟨hkeya, ?_, ?_, ?_⟩
  · intro j b hjb hbc hblat hblon
    have hkeyb : keyFor b = (c, none, none) := by
      unfold keyFor fix3
      rw [hbc, hblat, hblon]
      simp [hce]
    have htr : countryTruthy b = true := by
      unfold countryTruthy
      rw [hbc]
      simp [hce]
    refine ⟨hkeyb.trans hkeya.symm, ?_⟩
    have := bucketAux_mem (keyFor a) items 0 j b hjb htr (hkeyb.trans hkeya.symm)
    simpa using this
  · intro j k2 hj hk2 hne he
    exact hne ((List.indexOf_inj hj hk2).mp he)
  · intro hsize
    have hcond : (missingCoords a ||
        !insideAny (a.lat.getD 0) (a.lon.getD 0) (zonesPlace d) ||
        decide (3 ≤ (bucketOf items (keyFor a)).length)) = true := by
      simp [missingCoords, hlat]
    obtain ⟨pt, hpt, -⟩ :=
      pick_spec (seedOf a i ++ "#" ++ toString (localIdx items i a)) hl
    refine ⟨pt, hpt, ?_⟩
    rw [placeArticles_getElem?, ha]
    simp only [Option.map_some']
    rw [placeOne_caseA hc hl hcond, hpt]

/-- Witness for C10 at three missing-coordinate Japan records. -/
theorem nan_bucket_amended_witness :
    keyFor (japRec "a") = ("Japan", none, none) ∧
    (∀ j b, ([japRec "a", japRec "b", japRec "c"])[j]? = some b →
      b.country = some "Japan" → b.lat = none → b.lon = none →
      keyFor b = keyFor (japRec "a") ∧
      j ∈ bucketOf [japRec "a", japRec "b", japRec "c"] (keyFor (japRec "a"))) ∧
    (∀ j k2, j ∈ bucketOf [japRec "a", japRec "b", japRec "c"]
        (keyFor (japRec "a")) →
      k2 ∈ bucketOf [japRec "a", japRec "b", japRec "c"] (keyFor (japRec "a")) →
      j ≠ k2 →
      (bucketOf [japRec "a", japRec "b", japRec "c"]
        (keyFor (japRec "a"))).indexOf j ≠
        (bucketOf [japRec "a", japRec "b", japRec "c"]
          (keyFor (japRec "a"))).indexOf k2) ∧
    (3 ≤ (bucketOf [japRec "a", japRec "b", japRec "c"]
        (keyFor (japRec "a"))).length →
      ∃ pt, pickCountryPatchPoint "Japan"
          (seedOf (japRec "a") 0 ++ "#" ++
            toString (localIdx [japRec "a", japRec "b", japRec "c"] 0
              (japRec "a"))) = some pt ∧
        (placeArticles [japRec "a", japRec "b", japRec "c"])[0]? =
          some { japRec "a" with lat := some pt.1, lon := some pt.2 }) :=
  nan_bucket_amended [japRec "a", japRec "b", japRec "c"] 0 (japRec "a")
    "Japan" japanDef rfl rfl rfl (by decide) rfl rfl

/-- C6 amended: for a bucket of exactly two records sharing a recognized
country and a finite non-`(0,0)` coordinate inside a safe zone, each
record is placed by `spiralWithinRect` in the nearest zone at its
bucket-local index (0 for the first, 1 for the second) from the clamped
center, and both outputs stay inside that zone.  Index 0 is the spiral
point at radius 380 m — not the un-offset center. -/
theorem modest_pair_spiral (items : List Article) (i j : ℕ) (a b : Article)
    (c : String) (d : CountryDef) (x y : ℚ)
    (hne : i ≠ j)
    (hai : items[i]? = some a) (hbj : items[j]? = some b)
    (hac : a.country = some c) (hbc : b.country = some c)
    (hl : countryBounds.lookup c = some d)
    (halat : a.lat = some x) (halon : a.lon = some y)
    (hblat : b.lat = some x) (hblon : b.lon = some y)
    (hnz : ¬(x = 0 ∧ y = 0))
    (hin : insideAny x y (zonesPlace d) = true)
    (hbucket : bucketOf items (keyFor a) = [i, j]) :
    ((placeArticles items)[i]?).map coordsOf =
      some (some (spiralWithinRect
          (clampToRect x y (bestZone x y (zonesPlace d))).1
          (clampToRect x y (bestZone x y (zonesPlace d))).2
          (bestZone x y (zonesPlace d)) 0).1,
        some (spiralWithinRect
          (clampToRect x y (bestZone x y (zonesPlace d))).1
          (clampToRect x y (bestZone x y (zonesPlace d))).2
          (bestZone x y (zonesPlace d)) 0).2) ∧
    ((placeArticles items)[j]?).map coordsOf =
      some (some (spiralWithinRect
          (clampToRect x y (bestZone x y (zonesPlace d))).1
          (clampToRect x y (bestZone x y (zonesPlace d))).2
          (bestZone x y (zonesPlace d)) 1).1,
        some (spiralWithinRect
          (clampToRect x y (bestZone x y (zonesPlace d))).1
          (clampToRect x y (bestZone x y (zonesPlace d))).2
          (bestZone x y (zonesPlace d)) 1).2) ∧
    insideRect (spiralWithinRect
        (clampToRect x y (bestZone x y (zonesPlace d))).1
        (clampToRect x y (bestZone x y (zonesPlace d))).2
        (bestZone x y (zonesPlace d)) 0).1
      (spiralWithinRect
        (clampToRect x y (bestZone x y (zonesPlace d))).1
        (clampToRect x y (bestZone x y (zonesPlace d))).2
        (bestZone x y (zonesPlace d)) 0).2
      (bestZone x y (zonesPlace d)) = true ∧
    insideRect (spiralWithinRect
        (clampToRect x y (bestZone x y (zonesPlace d))).1
        (clampToRect x y (bestZone x y (zonesPlace d))).2
        (bestZone x y (zonesPlace d)) 1).1
      (spiralWithinRect
        (clampToRect x y (bestZone x y (zonesPlace d))).1
        (clampToRect x y (bestZone x y (zonesPlace d))).2
        (bestZone x y (zonesPlace d)) 1).2
      (bestZone x y (zonesPlace d)) = true := by
  have hkey : keyFor b = keyFor a := by
    unfold keyFor
    rw [hac, hbc, halat, hblat, halon, hblon]
  have hmiss_a : missingCoords a = false := by
    simp only [missingCoords, halat, halon, Option.isNone_some, Bool.false_or]
    rcases not_and_or.mp hnz with h | h <;> simp [h]
  have hmiss_b : missingCoords b = false := by
    simp only [missingCoords, hblat, hblon, Option.isNone_some, Bool.false_or]
    rcases not_and_or.mp hnz with h | h <;> simp [h]
  have hbucketb : bucketOf items (keyFor b) = [i, j] := by rw [hkey, hbucket]
  have hlia : localIdx items i a = 0 := by
    unfold localIdx
    dsimp only
    rw [hbucket]
    simp [List.indexOf_cons_self]
  have hlib : localIdx items j b = 1 := by
    unfold localIdx
    dsimp only
    rw [hbucketb]
    have hj1 : List.indexOf j [i, j] = 1 := by
      rw [List.indexOf_cons_ne _ hne, List.indexOf_cons_self]
    simp [hj1]
  have hc1a : (missingCoords a ||
      !insideAny (a.lat.getD 0) (a.lon.getD 0) (zonesPlace d) ||
      decide (3 ≤ (bucketOf items (keyFor a)).length)) = false := by
    rw [halat, halon, hbucket]
    simp [hmiss_a, hin]
  have hc1b : (missingCoords b ||
      !insideAny (b.lat.getD 0) (b.lon.getD 0) (zonesPlace d) ||
      decide (3 ≤ (bucketOf items (keyFor b)).length)) = false := by
    rw [hblat, hblon, hbucketb]
    simp [hmiss_b, hin]
  have hc3a : (decide (1 < (bucketOf items (keyFor a)).length) &&
      decide (0 ≤ localIdx items i a)) = true := by
    rw [hbucket, hlia]
    simp
  have hc3b : (decide (1 < (bucketOf items (keyFor b)).length) &&
      decide (0 ≤ localIdx items j b)) = true := by
    rw [hbucketb, hlib]
    simp
  have hwf : rectWF (bestZone x y (zonesPlace d)) :=
    zonesWF_of_lookup hl _ (bestZone_mem (zonesPlace_ne_nil d))
  refine ⟨?_, ?_, spiralWithinRect_inside hwf 0, spiralWithinRect_inside hwf 1⟩
  · rw [placeArticles_getElem?, hai]
    simp only [Option.map_some']
    rw [placeOne_caseC hac hl hc1a hc3a]
    unfold coordsOf
    simp only [halat, halon, Option.getD_some, hlia, Int.toNat_zero]
  · rw [placeArticles_getElem?, hbj]
    simp only [Option.map_some']
    rw [placeOne_caseC hbc hl hc1b hc3b]
    unfold coordsOf
    simp only [hblat, hblon, Option.getD_some, hlib, Int.toNat_one]

/-- C6 counterexample: for two identical Egypt records deep inside the
inset Nile-corridor zone, the bucket-local index 0 record is NOT placed
at the un-offset clamped center — the spiral offset at index 0 has
radius 380 m, so its output differs from the center. -/
theorem spiral_center_cex :
    ((placeArticles [egyRec "a", egyRec "b"])[0]?).map coordsOf ≠
      some (some (clampToRect 27 31 (bestZone 27 31 (zonesPlace egyptDef))).1,
        some (clampToRect 27 31 (bestZone 27 31 (zonesPlace egyptDef))).2) := by
  decide

/-- Witness for C6 at the concrete Egypt pair. -/
theorem modest_pair_spiral_witness :
    ((placeArticles [egyRec "a", egyRec "b"])[0]?).map coordsOf =
      some (some (spiralWithinRect
          (clampToRect 27 31 (bestZone 27 31 (zonesPlace egyptDef))).1
          (clampToRect 27 31 (bestZone 27 31 (zonesPlace egyptDef))).2
          (bestZone 27 31 (zonesPlace egyptDef)) 0).1,
        some (spiralWithinRect
          (clampToRect 27 31 (bestZone 27 31 (zonesPlace egyptDef))).1
          (clampToRect 27 31 (bestZone 27 31 (zonesPlace egyptDef))).2
          (bestZone 27 31 (zonesPlace egyptDef)) 0).2) ∧
    ((placeArticles [egyRec "a", egyRec "b"])[1]?).map coordsOf =
      some (some (spiralWithinRect
          (clampToRect 27 31 (bestZone 27 31 (zonesPlace egyptDef))).1
          (clampToRect 27 31 (bestZone 27 31 (zonesPlace egyptDef))).2
          (bestZone 27 31 (zonesPlace egyptDef)) 1).1,
        some (spiralWithinRect
          (clampToRect 27 31 (bestZone 27 31 (zonesPlace egyptDef))).1
          (clampToRect 27 31 (bestZone 27 31 (zonesPlace egyptDef))).2
          (bestZone 27 31 (zonesPlace egyptDef)) 1).2) ∧
    insideRect (spiralWithinRect
        (clampToRect 27 31 (bestZone 27 31 (zonesPlace egyptDef))).1
        (clampToRect 27 31 (bestZone 27 31 (zonesPlace egyptDef))).2
        (bestZone 27 31 (zonesPlace egyptDef)) 0).1
      (spiralWithinRect
        (clampToRect 27 31 (bestZone 27 31 (zonesPlace egyptDef))).1
        (clampToRect 27 31 (bestZone 27 31 (zonesPlace egyptDef))).2
        (bestZone 27 31 (zonesPlace egyptDef)) 0).2
      (bestZone 27 31 (zonesPlace egyptDef)) = true ∧
    insideRect (spiralWithinRect
        (clampToRect 27 31 (bestZone 27 31 (zonesPlace egyptDef))).1
        (clampToRect 27 31 (bestZone 27 31 (zonesPlace egyptDef))).2
        (bestZone 27 31 (zonesPlace egyptDef)) 1).1
      (spiralWithinRect
        (clampToRect 27 31 (bestZone 27 31 (zonesPlace egyptDef))).1
        (clampToRect 27 31 (bestZone 27 31 (zonesPlace egyptDef))).2
        (bestZone 27 31 (zonesPlace egyptDef)) 1).2
      (bestZone 27 31 (zonesPlace egyptDef)) = true :=
  modest_pair_spiral [egyRec "a", egyRec "b"] 0 1 (egyRec "a") (egyRec "b")
    "Egypt" egyptDef 27 31 (by decide) rfl rfl rfl rfl (by decide)
    rfl rfl rfl rfl (by decide) (by decide) (by decide)
